import Mathlib

/-!
Verification of the tsuku-llm daemon core against its specification.

The definitions below are a shallow embedding of the Rust sources of the
`tsuku-llm` crate: `src/model.rs` (model selection), `src/models.rs`
(model download), `src/main.rs` (duration parsing, JSON extraction, the
completion handler tail), `src/llama/context.rs` (decode) and
`src/llama/sampler.rs` (greedy sampling).

Modelling conventions:
- Rust `u64`/`u32`/`usize` values are `Nat` (all quantities involved stay far
  below `2^64`, so wrapping never matters for the properties proved here);
  `i32` token ids are `Int`.
- Rust `f64`/`f32` values are rationals (`ℚ`); every concrete value used in a
  theorem is exactly representable, and NaN inputs are outside the model.
- Strings are Lean `String`s / `List Char`; byte indexing and char indexing
  coincide on the ASCII inputs used by the theorems.
- Effectful operations (HTTP fetches, file removal, sleeps, progress
  callbacks) are modelled by an explicit event trace, with the outcome of
  each fetch attempt supplied by an oracle function.
-/

/-! ## Hardware profile (src/hardware.rs) -/

/-- `GpuBackend` from src/hardware.rs. -/
inductive GpuBackend where
  | cuda
  | metal
  | vulkan
  | none
deriving DecidableEq, Repr

/-- `CpuFeatures` from src/hardware.rs. -/
structure CpuFeatures where
  avx2 : Bool
  avx512 : Bool
deriving DecidableEq, Repr

/-- `HardwareProfile` from src/hardware.rs. -/
structure HardwareProfile where
  gpu_backend : GpuBackend
  vram_bytes : Nat
  ram_bytes : Nat
  cpu_features : CpuFeatures
deriving DecidableEq, Repr

/-! ## Model selection (src/model.rs) -/

/-- `Backend` from src/model.rs. -/
inductive Backend where
  | cuda
  | metal
  | vulkan
  | cpu
deriving DecidableEq, Repr

/-- `Display for Backend` from src/model.rs. -/
def Backend.toStr : Backend → String
  | .cuda => "cuda"
  | .metal => "metal"
  | .vulkan => "vulkan"
  | .cpu => "cpu"

/-- `FromStr for Backend` from src/model.rs (input lowercased, then matched). -/
def Backend.from_str (s : String) : Except String Backend :=
  match s.toLower with
  | "cuda" => .ok .cuda
  | "metal" => .ok .metal
  | "vulkan" => .ok .vulkan
  | "cpu" => .ok .cpu
  | _ => .error ("unknown backend: " ++ s)

/-- `From<GpuBackend> for Backend` from src/model.rs. -/
def Backend.ofGpu : GpuBackend → Backend
  | .cuda => .cuda
  | .metal => .metal
  | .vulkan => .vulkan
  | .none => .cpu

/-- `ModelSpec` from src/model.rs. -/
structure ModelSpec where
  name : String
  quantization : String
  backend : Backend
  size_bytes : Nat
  sha256 : String
  download_url : String
deriving DecidableEq, Repr

/-- `SelectionError` from src/model.rs.  The `f64` payloads of
`InsufficientResources` are modelled as rationals. -/
inductive SelectionError where
  | InsufficientResources (ram_gb minimum_gb : ℚ)
  | InvalidConfigModel (name : String)
  | InvalidConfigBackend (backend reason : String)
deriving DecidableEq, Repr

/-- `ModelEntry` from src/model.rs.  The field `split_count` is the one the
sibling file src/models.rs reads from manifest entries (the struct literal in
src/model.rs predates it); entries of the default manifest are single-part. -/
structure ModelEntry where
  quantization : String
  size_bytes : Nat
  sha256 : String
  download_url : String
  split_count : Nat
  supported_backends : List Backend
deriving DecidableEq, Repr

/-- `ModelManifest` from src/model.rs; the `HashMap` is modelled as an
association list with the same lookup semantics. -/
structure ModelManifest where
  models : List (String × ModelEntry)
deriving DecidableEq, Repr

/-- `ModelManifest::get` from src/model.rs. -/
def ModelManifest.get (m : ModelManifest) (name : String) : Option ModelEntry :=
  (m.models.find? (fun p => p.1 = name)).map (·.2)

/-- `ModelManifest::new` from src/model.rs: the default bundled models. -/
def ModelManifest.new : ModelManifest :=
  { models :=
      [ ("qwen2.5-3b-instruct-q4",
         { quantization := "q4_k_m"
           size_bytes := 2104932768
           sha256 := "626b4a6678b86442240e33df819e00132d3ba7dddfe1cdc4fbb18e0a9615c62d"
           download_url := "https://huggingface.co/Qwen/Qwen2.5-3B-Instruct-GGUF/resolve/main/qwen2.5-3b-instruct-q4_k_m.gguf"
           split_count := 1
           supported_backends := [.cuda, .metal, .vulkan, .cpu] }),
        ("qwen2.5-1.5b-instruct-q4",
         { quantization := "q4_k_m"
           size_bytes := 1117320736
           sha256 := "6a1a2eb6d15622bf3c96857206351ba97e1af16c30d7a74ee38970e434e9407e"
           download_url := "https://huggingface.co/Qwen/Qwen2.5-1.5B-Instruct-GGUF/resolve/main/qwen2.5-1.5b-instruct-q4_k_m.gguf"
           split_count := 1
           supported_backends := [.cuda, .metal, .vulkan, .cpu] }),
        ("qwen2.5-0.5b-instruct-q4",
         { quantization := "q4_k_m"
           size_bytes := 491400032
           sha256 := "74a4da8c9fdbcd15bd1f6d01d621410d31c6fc00986f5eb687824e7b93d7a9db"
           download_url := "https://huggingface.co/Qwen/Qwen2.5-0.5B-Instruct-GGUF/resolve/main/qwen2.5-0.5b-instruct-q4_k_m.gguf"
           split_count := 1
           supported_backends := [.cuda, .metal, .vulkan, .cpu] }) ] }

/-- `ModelConfig` from src/model.rs. -/
structure ModelConfig where
  local_model : Option String
  local_backend : Option String
deriving DecidableEq, Repr

/-- `ModelConfig::default` from src/model.rs. -/
def ModelConfig.default : ModelConfig :=
  { local_model := Option.none, local_backend := Option.none }

/-- Memory threshold `GB` from src/model.rs. -/
def GB : Nat := 1000000000

/-- `MINIMUM_RAM_GB` from src/model.rs. -/
def MINIMUM_RAM_GB : ℚ := 4

/-- `VRAM_THRESHOLD_HIGH` from src/model.rs. -/
def VRAM_THRESHOLD_HIGH : Nat := 8 * GB

/-- `VRAM_THRESHOLD_MED` from src/model.rs. -/
def VRAM_THRESHOLD_MED : Nat := 4 * GB

/-- `RAM_THRESHOLD_HIGH` from src/model.rs. -/
def RAM_THRESHOLD_HIGH : Nat := 16 * GB

/-- `RAM_THRESHOLD_MED` from src/model.rs. -/
def RAM_THRESHOLD_MED : Nat := 8 * GB

/-- `RAM_THRESHOLD_MIN` from src/model.rs. -/
def RAM_THRESHOLD_MIN : Nat := 4 * GB

/-- An ASCII single quote, used to reproduce quoted Rust error messages. -/
def sQuote : String := String.singleton (Char.ofNat 39)

namespace ModelSelector

/-- `ModelSelector::select_model_for_hardware` from src/model.rs. -/
def select_model_for_hardware (profile : HardwareProfile) : String :=
  let has_gpu := profile.gpu_backend ≠ GpuBackend.none
  if has_gpu then
    if profile.vram_bytes ≥ VRAM_THRESHOLD_HIGH then
      "qwen2.5-3b-instruct-q4"
    else if profile.vram_bytes ≥ VRAM_THRESHOLD_MED then
      "qwen2.5-1.5b-instruct-q4"
    else
      "qwen2.5-0.5b-instruct-q4"
  else
    if profile.ram_bytes ≥ RAM_THRESHOLD_HIGH then
      "qwen2.5-3b-instruct-q4"
    else if profile.ram_bytes ≥ RAM_THRESHOLD_MED then
      "qwen2.5-1.5b-instruct-q4"
    else
      "qwen2.5-0.5b-instruct-q4"

/-- `ModelSelector::validate_backend` from src/model.rs. -/
def validate_backend (backend : Backend) (profile : HardwareProfile) :
    Except SelectionError Unit :=
  let backend_str := backend.toStr
  match backend with
  | .cuda =>
    if profile.gpu_backend ≠ GpuBackend.cuda then
      .error (.InvalidConfigBackend backend_str "CUDA not available on this system")
    else .ok ()
  | .metal =>
    if profile.gpu_backend ≠ GpuBackend.metal then
      .error (.InvalidConfigBackend backend_str "Metal not available on this system")
    else .ok ()
  | .vulkan =>
    if profile.gpu_backend ≠ GpuBackend.vulkan ∧ profile.gpu_backend ≠ GpuBackend.cuda then
      .error (.InvalidConfigBackend backend_str "Vulkan not available on this system")
    else .ok ()
  | .cpu => .ok ()

/-- `ModelSelector::select_backend` from src/model.rs. -/
def select_backend (config : ModelConfig) (profile : HardwareProfile) :
    Except SelectionError Backend :=
  match config.local_backend with
  | some backend_str =>
    match Backend.from_str backend_str with
    | .error _ =>
      .error (.InvalidConfigBackend backend_str "must be one of: cuda, metal, vulkan, cpu")
    | .ok backend =>
      match validate_backend backend profile with
      | .error e => .error e
      | .ok () => .ok backend
  | Option.none => .ok (Backend.ofGpu profile.gpu_backend)

/-- `ModelSelector::build_spec` from src/model.rs (automatic path: the backend
is not checked against the entry). -/
def build_spec (manifest : ModelManifest) (model_name : String) (backend : Backend) :
    Except SelectionError ModelSpec :=
  match manifest.get model_name with
  | Option.none => .error (.InvalidConfigModel model_name)
  | some entry =>
    .ok { name := model_name
          quantization := entry.quantization
          backend := backend
          size_bytes := entry.size_bytes
          sha256 := entry.sha256
          download_url := entry.download_url }

/-- `ModelSelector::build_spec_from_override` from src/model.rs. -/
def build_spec_from_override (manifest : ModelManifest) (config : ModelConfig)
    (model_name : String) (profile : HardwareProfile) : Except SelectionError ModelSpec :=
  match manifest.get model_name with
  | Option.none => .error (.InvalidConfigModel model_name)
  | some entry =>
    match select_backend config profile with
    | .error e => .error e
    | .ok backend =>
      if entry.supported_backends.contains backend then
        .ok { name := model_name
              quantization := entry.quantization
              backend := backend
              size_bytes := entry.size_bytes
              sha256 := entry.sha256
              download_url := entry.download_url }
      else
        .error (.InvalidConfigBackend backend.toStr
          ("model " ++ sQuote ++ model_name ++ sQuote ++ " does not support backend " ++
            sQuote ++ backend.toStr ++ sQuote))

/-- `ModelSelector::select` from src/model.rs. -/
def select (manifest : ModelManifest) (config : ModelConfig)
    (profile : HardwareProfile) : Except SelectionError ModelSpec :=
  match config.local_model with
  | some model_name => build_spec_from_override manifest config model_name profile
  | Option.none =>
    let ram_gb : ℚ := (profile.ram_bytes : ℚ) / (GB : ℚ)
    if profile.ram_bytes < RAM_THRESHOLD_MIN then
      .error (.InsufficientResources ram_gb MINIMUM_RAM_GB)
    else
      match select_backend config profile with
      | .error e => .error e
      | .ok backend => build_spec manifest (select_model_for_hardware profile) backend

end ModelSelector

/-! ## Inference context (src/llama/context.rs) -/

/-- `LlamaError` from src/llama/error.rs (the variants reachable from the
operations modelled here). -/
inductive LlamaError where
  | ContextCreation (msg : String)
  | Tokenization (msg : String)
  | Decode (msg : String)
  | Detokenization (msg : String)
  | ContextWindowExceeded (used max : Nat)
deriving DecidableEq, Repr

/-- `LlamaContext::decode` from src/llama/context.rs.  `n_ctx` is the value of
`self.n_ctx()` and `nativeResult` the return code the native `llama_decode`
call would produce; the batch construction and freeing have no observable
effect beyond that code. -/
def LlamaContext.decode (n_ctx : Nat) (nativeResult : Int)
    (tokens : List Int) (pos : Nat) : Except LlamaError Unit :=
  if tokens.isEmpty then
    .ok ()
  else
    let end_pos := pos + tokens.length
    if end_pos > n_ctx then
      .error (.ContextWindowExceeded end_pos n_ctx)
    else if nativeResult ≠ 0 then
      .error (.Decode ("llama_decode returned error code " ++ toString nativeResult))
    else
      .ok ()

/-! ## Sampler (src/llama/sampler.rs) -/

/-- `Sampler` from src/llama/sampler.rs (`f32` temperature as a rational). -/
structure Sampler where
  temperature : ℚ
deriving DecidableEq, Repr

/-- `Sampler::greedy` from src/llama/sampler.rs. -/
def Sampler.greedy : Sampler := { temperature := 0 }

/-- The fold step of Rust `Iterator::max_by`: the accumulator is replaced
whenever it does not compare strictly greater, so the last maximal element
wins. -/
def maxByStep (acc y : Nat × ℚ) : Nat × ℚ :=
  if acc.2 ≤ y.2 then y else acc

/-- `Sampler::sample_greedy` from src/llama/sampler.rs:
`logits.iter().enumerate().max_by(..).map(|(idx, _)| idx).unwrap_or(0)`.
On rational logits `partial_cmp` is total, so the `unwrap_or(Equal)` branch
never fires; the `usize → i32` index cast is the identity for any real
vocabulary. -/
def Sampler.sample_greedy (logits : List ℚ) : Nat :=
  match logits.enum with
  | [] => 0
  | x :: xs => (xs.foldl maxByStep x).1

/-- `Sampler::sample` from src/llama/sampler.rs.  The temperature branch
(softmax over reals plus a wall-clock-seeded RNG) is abstracted by the
oracle `tempPath`; the claim under verification only exercises the greedy
branch, which is taken exactly when `temperature ≤ 0`. -/
def Sampler.sample (s : Sampler) (tempPath : List ℚ → Nat) (logits : List ℚ) : Nat :=
  if s.temperature ≤ 0 then Sampler.sample_greedy logits else tempPath logits

/-! ## Completion handler tail (src/main.rs, `LlmServer::complete`) -/

/-- `proto::ToolDef` (the fields `build_prompt` and the tool-call check use). -/
structure ToolDef where
  name : String
  description : String
deriving DecidableEq, Repr

/-- `proto::ToolCall`. -/
structure ToolCall where
  id : String
  name : String
  arguments_json : String
deriving DecidableEq, Repr

/-- `proto::Usage`. -/
structure Usage where
  input_tokens : Nat
  output_tokens : Nat
deriving DecidableEq, Repr

/-- `proto::CompletionResponse`. -/
structure CompletionResponse where
  content : String
  tool_calls : List ToolCall
  stop_reason : String
  usage : Usage
deriving DecidableEq, Repr

/-- An RPC `Status` error (only the ones `complete` can produce). -/
inductive RpcStatus where
  | unavailable (msg : String)
  | internal (msg : String)
deriving DecidableEq, Repr

/-- The tail of `LlmServer::complete` (src/main.rs lines 457-487): the
`stop_reason` decision and response construction that run once generation has
finished and detokenization has produced `content`.  `timed_out` is the flag
set by the 300 s wall-clock check, `output_len` the number of generated
tokens, `max_tokens` the effective bound, `tools` the request tool list and
`parsed` the result of `Self::parse_tool_call(&content)`. -/
def completeFinish (timed_out : Bool) (output_len max_tokens : Nat)
    (tools : List ToolDef) (parsed : Option ToolCall) (content : String)
    (input_tokens : Nat) : Except RpcStatus CompletionResponse :=
  let scDone :=
    if timed_out then
      ("timeout", ([] : List ToolCall))
    else if output_len ≥ max_tokens then
      ("max_tokens", [])
    else if ¬ tools.isEmpty then
      match parsed with
      | some tool_call => ("tool_use", [tool_call])
      | Option.none => ("end_turn", [])
    else
      ("end_turn", [])
  .ok { content := content
        tool_calls := scDone.2
        stop_reason := scDone.1
        usage := { input_tokens := input_tokens, output_tokens := output_len } }

/-! ## JSON extraction (src/main.rs, `LlmServer::extract_json`) -/

/-- The opening-brace byte, via its code point. -/
def lbrace : Char := Char.ofNat 123

/-- The closing-brace byte, via its code point. -/
def rbrace : Char := Char.ofNat 125

/-- The byte walk of `LlmServer::extract_json` over `bytes[start..]`
(src/main.rs lines 275-293).  Arguments mirror the loop state: remaining
bytes, `depth`, `in_string`, `escape_next`, and the running index `i`;
the result is the index of the brace that closes the object, if any. -/
def extractJsonGo : List Char → Int → Bool → Bool → Nat → Option Nat
  | [], _, _, _, _ => Option.none
  | c :: rest, depth, in_string, escape_next, i =>
    if escape_next then
      extractJsonGo rest depth in_string false (i + 1)
    else if c = '\\' ∧ in_string then
      extractJsonGo rest depth in_string true (i + 1)
    else if c = '"' then
      extractJsonGo rest depth (! in_string) escape_next (i + 1)
    else if c = lbrace ∧ in_string = false then
      extractJsonGo rest (depth + 1) in_string escape_next (i + 1)
    else if c = rbrace ∧ in_string = false then
      (if depth - 1 = 0 then some i else extractJsonGo rest (depth - 1) in_string escape_next (i + 1))
    else
      extractJsonGo rest depth in_string escape_next (i + 1)

/-- `LlmServer::extract_json` from src/main.rs: find the first `{`, walk the
bytes tracking brace depth, string state and backslash escapes, and return the
substring `content[start..start + i + 1]` spanning the matched braces. -/
def extract_json (content : List Char) : Option (List Char) :=
  match content.findIdx? (· = lbrace) with
  | Option.none => Option.none
  | some start =>
    (extractJsonGo (content.drop start) 0 false false 0).map
      (fun i => (content.drop start).take (i + 1))

/-! ## Duration parsing (src/main.rs, `parse_duration`) -/

/-- The `&s[a..b]` slice on the char level (identical to the Rust byte slice
for ASCII inputs). -/
def strSlice (s : List Char) (a b : Nat) : List Char := (s.take b).drop a

/-- Rust `str::parse::<u64>` restricted to the slices `parse_duration` feeds
it (they always begin with an ASCII digit, so sign handling is irrelevant):
every character must be a digit and the value must fit in a `u64`.  The error
carries the message `parse_duration` attaches via `map_err`. -/
def parseU64 (l : List Char) : Except String Nat :=
  if l ≠ [] ∧ l.all Char.isDigit then
    let v := l.foldl (fun acc c => acc * 10 + (c.toNat - 48)) 0
    if v < 2 ^ 64 then .ok v
    else .error ("invalid number: " ++ String.mk l)
  else .error ("invalid number: " ++ String.mk l)

/-- The length of the alphabetic run at the head of a char list (the unit
suffix scan `while i < chars.len() && chars[i].is_alphabetic()`). -/
def alphaRun (l : List Char) : Nat := (l.takeWhile Char.isAlpha).length

/-- The `while i < chars.len()` loop of `parse_duration` (src/main.rs lines
73-121), with `fuel` bounding the iteration count (any fuel larger than the
remaining length is exhaustive).  Returns the loop-exit state
`(num_start, total_secs)`.

The `ns` and `us` arms `continue` without resetting `num_start`, exactly as
the source does.  `char::is_alphabetic` is modelled by `Char.isAlpha`, which
agrees with it on ASCII input. -/
def pdLoop (s : List Char) : Nat → Nat → Option Nat → Nat →
    Except String (Option Nat × Nat)
  | 0, _, _, _ => .error "loop fuel exhausted"
  | fuel + 1, i, num_start, total_secs =>
    match s.get? i with
    | Option.none => .ok (num_start, total_secs)
    | some c =>
      if c.isDigit then
        pdLoop s fuel (i + 1) (if num_start.isNone then some i else num_start) total_secs
      else if c.isAlpha then
        match num_start with
        | Option.none =>
          .error ("invalid duration: missing number before " ++ sQuote ++ c.toString ++ sQuote)
        | some start =>
          match parseU64 (strSlice s start i) with
          | .error e => .error e
          | .ok num =>
            let unitEnd := i + alphaRun (s.drop i)
            let unit := strSlice s i unitEnd
            if unit = "ns".toList then
              pdLoop s fuel unitEnd num_start total_secs
            else if unit = "us".toList ∨ unit = "Âµs".toList then
              pdLoop s fuel unitEnd num_start total_secs
            else if unit = "ms".toList then
              pdLoop s fuel unitEnd Option.none
                (total_secs + if num ≥ 1000 then num / 1000 else 0)
            else if unit = "s".toList then
              pdLoop s fuel unitEnd Option.none (total_secs + num * 1)
            else if unit = "m".toList then
              pdLoop s fuel unitEnd Option.none (total_secs + num * 60)
            else if unit = "h".toList then
              pdLoop s fuel unitEnd Option.none (total_secs + num * 3600)
            else
              .error ("unknown unit: " ++ String.mk unit)
      else
        pdLoop s fuel (i + 1) num_start total_secs

/-- Rust `str::trim`: strip whitespace from both ends (`Char.isWhitespace`
agrees with Rust on the ASCII whitespace these inputs can contain). -/
def rustTrim (l : List Char) : List Char :=
  ((l.dropWhile Char.isWhitespace).reverse.dropWhile Char.isWhitespace).reverse

/-- `parse_duration` from src/main.rs: trim, run the scanning loop, apply the
trailing bare-number rule (`assume seconds`), and reject a zero total. -/
def parse_duration (input : String) : Except String Nat :=
  let s := rustTrim input.toList
  if s.isEmpty then
    .error "empty duration"
  else
    match pdLoop s (s.length + 1) 0 Option.none 0 with
    | .error e => .error e
    | .ok (num_start, total_secs) =>
      match num_start with
      | Option.none =>
        if total_secs = 0 then .error "duration must be positive" else .ok total_secs
      | some start =>
        match parseU64 (s.drop start) with
        | .error e => .error e
        | .ok num =>
          if total_secs + num = 0 then .error "duration must be positive"
          else .ok (total_secs + num)

/-! ## Model download (src/models.rs) -/

/-- `ModelError` from src/models.rs. -/
inductive ModelError where
  | NotInManifest (name : String)
  | Network (msg : String)
  | Io (msg : String)
  | ChecksumMismatch (model expected actual : String)
  | DownloadFailed (attempts : Nat) (last_error : String)
deriving DecidableEq, Repr

/-- The `thiserror` display strings of `ModelError` (what `e.to_string()`
yields when an attempt error is recorded as `last_error`). -/
def ModelError.toMessage : ModelError → String
  | .NotInManifest n => "model " ++ sQuote ++ n ++ sQuote ++ " not found in manifest"
  | .Network m => "network error: " ++ m
  | .Io m => "IO error: " ++ m
  | .ChecksumMismatch model expected actual =>
    "checksum mismatch for " ++ sQuote ++ model ++ sQuote ++ ": expected " ++
      expected ++ ", got " ++ actual
  | .DownloadFailed a e => "download failed after " ++ toString a ++ " attempts: " ++ e

/-- Zero-padding to width 5, Rust `format!("{:05}", n)`. -/
def pad5 (n : Nat) : String :=
  let s := toString n
  String.mk (List.replicate (5 - s.length) '0') ++ s

/-- `split_file_urls` from src/models.rs: substitute the `-0000K-of-NNNNN`
part number into the first part URL for K in `1..=split_count`. -/
def split_file_urls (first_url : String) (split_count : Nat) : List String :=
  let total := pad5 split_count
  (List.range' 1 split_count).map fun i =>
    first_url.replace ("-00001-of-" ++ total) ("-" ++ pad5 i ++ "-of-" ++ total)

/-- `Path::join` on string paths. -/
def joinPath (dir file : String) : String := dir ++ "/" ++ file

/-- Rust `url.rsplit('/').next()`: the final path component (the whole string
when no slash occurs); `rsplit` always yields at least one piece. -/
def urlFileName (url : String) : String := (url.splitOn "/").getLastD url

/-- `split_file_paths` from src/models.rs. -/
def split_file_paths (models_dir first_url : String) (split_count : Nat) : List String :=
  (split_file_urls first_url split_count).map fun url =>
    joinPath models_dir (urlFileName url)

namespace ModelManager

/-- `ModelManager::model_path` from src/models.rs. -/
def model_path (manifest : ModelManifest) (models_dir name : String) : String :=
  match manifest.get name with
  | some entry =>
    if entry.split_count > 1 then joinPath models_dir (urlFileName entry.download_url)
    else joinPath models_dir (name ++ ".gguf")
  | Option.none => joinPath models_dir (name ++ ".gguf")

/-- `ModelManager::all_model_paths` from src/models.rs. -/
def all_model_paths (manifest : ModelManifest) (models_dir name : String) : List String :=
  match manifest.get name with
  | some entry =>
    if entry.split_count > 1 then split_file_paths models_dir entry.download_url entry.split_count
    else [joinPath models_dir (name ++ ".gguf")]
  | Option.none => [joinPath models_dir (name ++ ".gguf")]

/-- `ModelManager::download_dir` from src/models.rs. -/
def download_dir (models_dir : String) : String := joinPath models_dir ".download"

/-- `ModelManager::temp_path` from src/models.rs. -/
def temp_path (models_dir name : String) : String :=
  joinPath (download_dir models_dir) (name ++ ".gguf.part")

/-- `ModelManager::verify` from src/models.rs.  `files` is the on-disk state
(`None` = file absent) and `hash` the SHA-256 digest function
(`compute_file_sha256`), both supplied as oracles. -/
def verify (hash : List Nat → String) (files : String → Option (List Nat))
    (manifest : ModelManifest) (models_dir name : String) : Except ModelError Bool :=
  match manifest.get name with
  | Option.none => .error (.NotInManifest name)
  | some entry =>
    let path := model_path manifest models_dir name
    match files path with
    | Option.none => .ok false
    | some bytes =>
      if entry.sha256 = "" then .ok true
      else if hash bytes = entry.sha256 then .ok true
      else .ok false

/-- `ModelManager::is_available` from src/models.rs: every expected part
exists on disk and `verify` returns `Ok(true)` (a verify error degrades to
`false`). -/
def is_available (hash : List Nat → String) (files : String → Option (List Nat))
    (manifest : ModelManifest) (models_dir name : String) : Bool :=
  if (all_model_paths manifest models_dir name).all (fun p => (files p).isSome) then
    match verify hash files manifest models_dir name with
    | .ok valid => valid
    | .error _ => false
  else false

end ModelManager

/-- Observable side effects of `ModelManager::download`: HTTP fetch attempts,
progress-callback invocations, staging-file removals, backoff sleeps and
atomic renames. -/
inductive DlEvent where
  | fetch (url : String) (attempt : Nat)
  | progressCall (bytes_downloaded total_bytes : Nat)
  | removeFile (path : String)
  | sleep (secs : Nat)
  | renameFile (src dst : String)
deriving DecidableEq, Repr

/-- One HTTP attempt as seen from the retry loop: the progress-callback
invocations it performs and its outcome (`download_with_verification` /
`download_file` succeed, or fail with a network, I/O or checksum error). -/
structure AttemptResult where
  progress : List (Nat × Nat)
  outcome : Except ModelError Unit
deriving Repr

/-- The trace one attempt leaves: its fetch plus its progress callbacks. -/
def attemptTrace (url : String) (attempt : Nat) (r : AttemptResult) : List DlEvent :=
  .fetch url attempt :: r.progress.map fun p => .progressCall p.1 p.2

/-- The retry loop `for attempt in 1..=3` shared by the single-file and
split-part branches of `ModelManager::download` (src/models.rs lines 232-258
and 284-314): on failure the staging file is removed and, when more attempts
remain, the loop sleeps `1 << (attempt - 1)` seconds; when the loop is
exhausted the result is `DownloadFailed { attempts: 3, last_error }`.
`fuel` counts the attempts still allowed and `attempt` the 1-based number of
the next one. -/
def retryFrom (oracle : Nat → AttemptResult) (url tempPath : String) :
    Nat → Nat → String → List DlEvent × Except ModelError Unit
  | _, 0, last_error => ([], .error (.DownloadFailed 3 last_error))
  | attempt, fuel + 1, _ =>
    let r := oracle attempt
    match r.outcome with
    | .ok () => (attemptTrace url attempt r, .ok ())
    | .error e =>
      let sleepEv : List DlEvent := if attempt < 3 then [.sleep (2 ^ (attempt - 1))] else []
      let rest := retryFrom oracle url tempPath (attempt + 1) fuel e.toMessage
      (attemptTrace url attempt r ++ [.removeFile tempPath] ++ sleepEv ++ rest.1, rest.2)

/-- The three-attempt retry loop, entered at attempt 1 with an empty
`last_error` (`let mut last_error = String::new()`). -/
def retry3 (oracle : Nat → AttemptResult) (url tempPath : String) :
    List DlEvent × Except ModelError Unit :=
  retryFrom oracle url tempPath 1 3 ""

/-- The single-file branch of `ModelManager::download` (src/models.rs lines
269-320), given the manifest entry and the attempt oracle: remove a stale
final file, run the retry loop, and commit with an atomic rename on
success. -/
def downloadSingleFile (oracle : Nat → AttemptResult)
    (files : String → Option (List Nat)) (models_dir name : String)
    (entry : ModelEntry) : List DlEvent × Except ModelError String :=
  let tempPath := ModelManager.temp_path models_dir name
  let final := joinPath models_dir (name ++ ".gguf")
  let cleanup : List DlEvent := if (files final).isSome then [.removeFile final] else []
  let run := retry3 oracle entry.download_url tempPath
  match run.2 with
  | .ok () => (cleanup ++ run.1 ++ [.renameFile tempPath final], .ok final)
  | .error e => (cleanup ++ run.1, .error e)

/-- The split-part loop of `ModelManager::download` (src/models.rs lines
214-268): walk the `(url, filename)` pairs; an already-present part is
skipped, otherwise the part is fetched through the same retry loop and
committed by rename; the first exhausted retry aborts the walk. `oracle`
takes the 0-based part index and the attempt number. -/
def downloadParts (oracle : Nat → Nat → AttemptResult)
    (files : String → Option (List Nat)) (models_dir : String) :
    List (String × String) → Nat → List DlEvent × Except ModelError Unit
  | [], _ => ([], .ok ())
  | (url, filename) :: rest, idx =>
    let path := joinPath models_dir filename
    if (files path).isSome then
      downloadParts oracle files models_dir rest (idx + 1)
    else
      let tempPath := joinPath (ModelManager.download_dir models_dir) (filename ++ ".part")
      let run := retryFrom (oracle idx) url tempPath 1 3 ""
      match run.2 with
      | .ok () =>
        let tail := downloadParts oracle files models_dir rest (idx + 1)
        (run.1 ++ [.renameFile tempPath path] ++ tail.1, tail.2)
      | .error e => (run.1, .error e)

/-- `ModelManager::download` from src/models.rs: manifest lookup, the
idempotence early return when `is_available`, then the split or single-file
branch. Directory creation has no observable event. -/
def ModelManager.download (hash : List Nat → String)
    (files : String → Option (List Nat)) (oracle : Nat → Nat → AttemptResult)
    (manifest : ModelManifest) (models_dir name : String) :
    List DlEvent × Except ModelError String :=
  match manifest.get name with
  | Option.none => ([], .error (.NotInManifest name))
  | some entry =>
    let final := ModelManager.model_path manifest models_dir name
    if ModelManager.is_available hash files manifest models_dir name then
      ([], .ok final)
    else if entry.split_count > 1 then
      let parts := (split_file_urls entry.download_url entry.split_count).map
        fun url => (url, urlFileName url)
      let run := downloadParts oracle files models_dir parts 0
      match run.2 with
      | .ok () => (run.1, .ok final)
      | .error e => (run.1, .error e)
    else
      downloadSingleFile (oracle 0) files models_dir name entry

/-- The number of HTTP fetch attempts a trace records. -/
def countFetch (tr : List DlEvent) : Nat :=
  (tr.filter fun ev => match ev with | .fetch _ _ => true | _ => false).length

/-- The number of progress-callback invocations a trace records. -/
def countProgress (tr : List DlEvent) : Nat :=
  (tr.filter fun ev => match ev with | .progressCall _ _ => true | _ => false).length

/-! ## Helper lemmas -/

/-- Every entry of the default manifest supports every backend. -/
theorem new_get_supported (name : String) (entry : ModelEntry)
    (h : ModelManifest.new.get name = some entry) (b : Backend) :
    b ∈ entry.supported_backends := by
  by_cases h3 : "qwen2.5-3b-instruct-q4" = name
  · simp [ModelManifest.new, ModelManifest.get, List.find?, h3] at h
    cases b <;> simp [← h]
  · by_cases h15 : "qwen2.5-1.5b-instruct-q4" = name
    · simp [ModelManifest.new, ModelManifest.get, List.find?, h3, h15] at h
      cases b <;> simp [← h]
    · by_cases h05 : "qwen2.5-0.5b-instruct-q4" = name
      · simp [ModelManifest.new, ModelManifest.get, List.find?, h3, h15, h05] at h
        cases b <;> simp [← h]
      · simp [ModelManifest.new, ModelManifest.get, List.find?, h3, h15, h05] at h

/-- The automatically selected model name is always present in the default
manifest. -/
theorem new_get_selected_isSome (profile : HardwareProfile) :
    (ModelManifest.new.get (ModelSelector.select_model_for_hardware profile)).isSome := by
  simp only [ModelSelector.select_model_for_hardware]
  split <;> split <;> first | decide | (split <;> decide)

/-- On the config-override path (`local_model` set) a successful selection
always satisfies the supported-backends invariant, because
`build_spec_from_override` checks it. -/
theorem select_override_supported (manifest : ModelManifest) (config : ModelConfig)
    (profile : HardwareProfile) (m : String) (spec : ModelSpec)
    (hc : config.local_model = some m)
    (hok : ModelSelector.select manifest config profile = .ok spec) :
    ∃ entry, manifest.get spec.name = some entry ∧
      spec.backend ∈ entry.supported_backends := by
  simp only [ModelSelector.select, hc] at hok
  unfold ModelSelector.build_spec_from_override at hok
  split at hok
  next => exact absurd hok (by simp)
  next entry heq =>
    split at hok
    next => exact absurd hok (by simp)
    next backend hb =>
      split at hok
      next hmem =>
        cases hok
        exact ⟨entry, heq, by simpa using hmem⟩
      next hmem => exact absurd hok (by simp)

/-- On the automatic path over the default manifest the invariant also holds,
because every default entry supports every backend. -/
theorem select_default_manifest_supported (config : ModelConfig)
    (profile : HardwareProfile) (spec : ModelSpec)
    (hok : ModelSelector.select ModelManifest.new config profile = .ok spec) :
    ∃ entry, ModelManifest.new.get spec.name = some entry ∧
      spec.backend ∈ entry.supported_backends := by
  cases hc : config.local_model with
  | some m => exact select_override_supported _ _ _ _ _ hc hok
  | none =>
    simp only [ModelSelector.select, hc] at hok
    by_cases hram : profile.ram_bytes < RAM_THRESHOLD_MIN
    · rw [if_pos hram] at hok; exact absurd hok (by simp)
    · rw [if_neg hram] at hok
      unfold ModelSelector.build_spec at hok
      split at hok
      next => exact absurd hok (by simp)
      next backend hb =>
        split at hok
        next => exact absurd hok (by simp)
        next entry hget =>
          cases hok
          exact ⟨entry, hget, new_get_supported _ _ hget _⟩

/-- C1 counterexample: on `gpu=None, ram=32e9` with an empty config, `select`
succeeds on a CPU path (with the 3B model) instead of failing `NoGpuDetected`
(no such error variant exists in `SelectionError`). -/
theorem c1_counterexample :
    ModelSelector.select ModelManifest.new ModelConfig.default
      { gpu_backend := .none, vram_bytes := 0, ram_bytes := 32000000000,
        cpu_features := { avx2 := false, avx512 := false } } =
    .ok { name := "qwen2.5-3b-instruct-q4", quantization := "q4_k_m",
          backend := .cpu, size_bytes := 2104932768,
          sha256 := "626b4a6678b86442240e33df819e00132d3ba7dddfe1cdc4fbb18e0a9615c62d",
          download_url := "https://huggingface.co/Qwen/Qwen2.5-3B-Instruct-GGUF/resolve/main/qwen2.5-3b-instruct-q4_k_m.gguf" } := by
  rfl

/-- C1 (amended): the selector enforces no GPU floor.  With no config
override it fails only with `InsufficientResources` when `ram_bytes` is below
the 4 GB minimum; for any profile meeting the RAM minimum it succeeds —
GPU-less (CPU-only) and low-VRAM profiles included. -/
theorem c1_no_gpu_floor (profile : HardwareProfile) :
    (profile.ram_bytes < RAM_THRESHOLD_MIN →
      ModelSelector.select ModelManifest.new ModelConfig.default profile =
        .error (.InsufficientResources ((profile.ram_bytes : ℚ) / (GB : ℚ)) MINIMUM_RAM_GB)) ∧
    (RAM_THRESHOLD_MIN ≤ profile.ram_bytes →
      ∃ spec, ModelSelector.select ModelManifest.new ModelConfig.default profile = .ok spec) := by
  constructor
  · intro h
    simp [ModelSelector.select, ModelConfig.default, h]
  · intro h
    simp only [ModelSelector.select, ModelConfig.default, if_neg (not_lt.mpr h)]
    simp only [ModelSelector.select_backend]
    have hs := new_get_selected_isSome profile
    unfold ModelSelector.build_spec
    cases hget : ModelManifest.new.get (ModelSelector.select_model_for_hardware profile) with
    | none => rw [hget] at hs; exact absurd hs (by simp)
    | some entry => exact ⟨_, rfl⟩

/-- C1 witness: a 2 GB profile fails with `InsufficientResources` and a
CUDA 4 GB VRAM / 32 GB RAM profile succeeds. -/
theorem c1_witness :
    (ModelSelector.select ModelManifest.new ModelConfig.default
        { gpu_backend := .cuda, vram_bytes := 4000000000, ram_bytes := 2000000000,
          cpu_features := { avx2 := false, avx512 := false } } =
      .error (.InsufficientResources ((2000000000 : Nat) / (GB : ℚ)) MINIMUM_RAM_GB)) ∧
    (∃ spec, ModelSelector.select ModelManifest.new ModelConfig.default
        { gpu_backend := .cuda, vram_bytes := 4000000000, ram_bytes := 32000000000,
          cpu_features := { avx2 := false, avx512 := false } } = .ok spec) :=
  ⟨(c1_no_gpu_floor _).1 (by norm_num [RAM_THRESHOLD_MIN, GB]),
   (c1_no_gpu_floor _).2 (by norm_num [RAM_THRESHOLD_MIN, GB])⟩

/-- C2 counterexample: `gpu=Cuda, vram=16e9, ram=32e9` with an empty config
selects `qwen2.5-3b-instruct-q4` (the manifest has no 14B variant), not
`qwen2.5-14b-instruct-q4`. -/
theorem c2_counterexample :
    ModelSelector.select ModelManifest.new ModelConfig.default
      { gpu_backend := .cuda, vram_bytes := 16000000000, ram_bytes := 32000000000,
        cpu_features := { avx2 := false, avx512 := false } } =
    .ok { name := "qwen2.5-3b-instruct-q4", quantization := "q4_k_m",
          backend := .cuda, size_bytes := 2104932768,
          sha256 := "626b4a6678b86442240e33df819e00132d3ba7dddfe1cdc4fbb18e0a9615c62d",
          download_url := "https://huggingface.co/Qwen/Qwen2.5-3B-Instruct-GGUF/resolve/main/qwen2.5-3b-instruct-q4_k_m.gguf" } ∧
    "qwen2.5-3b-instruct-q4" ≠ "qwen2.5-14b-instruct-q4" := by
  exact ⟨rfl, by decide⟩

/-- C2 (amended): for a GPU profile passing the 4 GB RAM check with no config
override, the VRAM tiers are 8 GB and 4 GB (not 14 GB) and the variants are
3B / 1.5B / 0.5B (not 14B / 7B); the backend is the detected GPU backend.  In
particular `gpu=Cuda, vram=16e9, ram=32e9` yields the 3B spec on CUDA. -/
theorem c2_vram_tiers (profile : HardwareProfile) (spec : ModelSpec)
    (hram : RAM_THRESHOLD_MIN ≤ profile.ram_bytes)
    (hgpu : profile.gpu_backend ≠ GpuBackend.none)
    (hok : ModelSelector.select ModelManifest.new ModelConfig.default profile = .ok spec) :
    spec.name = (if profile.vram_bytes ≥ VRAM_THRESHOLD_HIGH then "qwen2.5-3b-instruct-q4"
      else if profile.vram_bytes ≥ VRAM_THRESHOLD_MED then "qwen2.5-1.5b-instruct-q4"
      else "qwen2.5-0.5b-instruct-q4") ∧
    spec.backend = Backend.ofGpu profile.gpu_backend := by
  simp only [ModelSelector.select, ModelConfig.default,
    if_neg (not_lt.mpr hram)] at hok
  simp only [ModelSelector.select_backend] at hok
  unfold ModelSelector.build_spec at hok
  split at hok
  next => exact absurd hok (by simp)
  next entry hget =>
    cases hok
    refine ⟨?_, rfl⟩
    simp only [ModelSelector.select_model_for_hardware]
    rw [if_pos hgpu]

/-- C2 witness: the amended tiering applied to the CUDA 16 GB / 32 GB
profile. -/
theorem c2_witness :
    ({ name := "qwen2.5-3b-instruct-q4", quantization := "q4_k_m",
       backend := .cuda, size_bytes := 2104932768,
       sha256 := "626b4a6678b86442240e33df819e00132d3ba7dddfe1cdc4fbb18e0a9615c62d",
       download_url := "https://huggingface.co/Qwen/Qwen2.5-3B-Instruct-GGUF/resolve/main/qwen2.5-3b-instruct-q4_k_m.gguf" : ModelSpec }).name =
      (if (16000000000 : Nat) ≥ VRAM_THRESHOLD_HIGH then "qwen2.5-3b-instruct-q4"
        else if (16000000000 : Nat) ≥ VRAM_THRESHOLD_MED then "qwen2.5-1.5b-instruct-q4"
        else "qwen2.5-0.5b-instruct-q4") ∧
    ({ name := "qwen2.5-3b-instruct-q4", quantization := "q4_k_m",
       backend := .cuda, size_bytes := 2104932768,
       sha256 := "626b4a6678b86442240e33df819e00132d3ba7dddfe1cdc4fbb18e0a9615c62d",
       download_url := "https://huggingface.co/Qwen/Qwen2.5-3B-Instruct-GGUF/resolve/main/qwen2.5-3b-instruct-q4_k_m.gguf" : ModelSpec }).backend =
      Backend.ofGpu GpuBackend.cuda :=
  c2_vram_tiers
    { gpu_backend := .cuda, vram_bytes := 16000000000, ram_bytes := 32000000000,
      cpu_features := { avx2 := false, avx512 := false } }
    _ (by norm_num [RAM_THRESHOLD_MIN, GB]) (by decide) rfl

/-- A manifest whose 3B entry claims CPU-only support, exercising the
unchecked automatic path of `build_spec`. -/
def cpuOnlyManifest : ModelManifest :=
  { models :=
      [ ("qwen2.5-3b-instruct-q4",
         { quantization := "q4_k_m"
           size_bytes := 1000
           sha256 := ""
           download_url := "https://example.com/3b.gguf"
           split_count := 1
           supported_backends := [.cpu] }) ] }

/-- C3 counterexample: with a manifest whose selected entry only lists `Cpu`,
the automatic path still returns a CUDA-backed spec — `build_spec` never
checks `supported_backends`, so the invariant fails for this manifest. -/
theorem c3_counterexample :
    ModelSelector.select cpuOnlyManifest ModelConfig.default
      { gpu_backend := .cuda, vram_bytes := 16000000000, ram_bytes := 32000000000,
        cpu_features := { avx2 := false, avx512 := false } } =
    .ok { name := "qwen2.5-3b-instruct-q4", quantization := "q4_k_m",
          backend := .cuda, size_bytes := 1000, sha256 := "",
          download_url := "https://example.com/3b.gguf" } ∧
    cpuOnlyManifest.get "qwen2.5-3b-instruct-q4" =
      some { quantization := "q4_k_m", size_bytes := 1000, sha256 := "",
             download_url := "https://example.com/3b.gguf", split_count := 1,
             supported_backends := [.cpu] } ∧
    Backend.cuda ∉ [Backend.cpu] := by
  refine ⟨rfl, rfl, by decide⟩

/-- C3 (amended): the supported-backends invariant holds for every manifest
on the config-override path (where `build_spec_from_override` checks it), and
for every config over the default manifest (whose entries support every
backend); the automatic path performs no check, so it does not hold for
arbitrary manifests. -/
theorem c3_backend_supported :
    (∀ (manifest : ModelManifest) (config : ModelConfig) (profile : HardwareProfile)
        (m : String) (spec : ModelSpec),
        config.local_model = some m →
        ModelSelector.select manifest config profile = .ok spec →
        ∃ entry, manifest.get spec.name = some entry ∧
          spec.backend ∈ entry.supported_backends) ∧
    (∀ (config : ModelConfig) (profile : HardwareProfile) (spec : ModelSpec),
        ModelSelector.select ModelManifest.new config profile = .ok spec →
        ∃ entry, ModelManifest.new.get spec.name = some entry ∧
          spec.backend ∈ entry.supported_backends) :=
  ⟨fun manifest config profile m spec hc hok =>
      select_override_supported manifest config profile m spec hc hok,
   fun config profile spec hok =>
      select_default_manifest_supported config profile spec hok⟩

/-- C3 witness: the invariant at a concrete override selection and at a
concrete automatic selection over the default manifest. -/
theorem c3_witness :
    (∃ entry, ModelManifest.new.get
        (({ name := "qwen2.5-0.5b-instruct-q4", quantization := "q4_k_m",
            backend := .cuda, size_bytes := 491400032,
            sha256 := "74a4da8c9fdbcd15bd1f6d01d621410d31c6fc00986f5eb687824e7b93d7a9db",
            download_url := "https://huggingface.co/Qwen/Qwen2.5-0.5B-Instruct-GGUF/resolve/main/qwen2.5-0.5b-instruct-q4_k_m.gguf" : ModelSpec }).name) = some entry ∧
      ({ name := "qwen2.5-0.5b-instruct-q4", quantization := "q4_k_m",
         backend := .cuda, size_bytes := 491400032,
         sha256 := "74a4da8c9fdbcd15bd1f6d01d621410d31c6fc00986f5eb687824e7b93d7a9db",
         download_url := "https://huggingface.co/Qwen/Qwen2.5-0.5B-Instruct-GGUF/resolve/main/qwen2.5-0.5b-instruct-q4_k_m.gguf" : ModelSpec }).backend ∈ entry.supported_backends) ∧
    (∃ entry, ModelManifest.new.get
        (({ name := "qwen2.5-3b-instruct-q4", quantization := "q4_k_m",
            backend := .metal, size_bytes := 2104932768,
            sha256 := "626b4a6678b86442240e33df819e00132d3ba7dddfe1cdc4fbb18e0a9615c62d",
            download_url := "https://huggingface.co/Qwen/Qwen2.5-3B-Instruct-GGUF/resolve/main/qwen2.5-3b-instruct-q4_k_m.gguf" : ModelSpec }).name) = some entry ∧
      ({ name := "qwen2.5-3b-instruct-q4", quantization := "q4_k_m",
         backend := .metal, size_bytes := 2104932768,
         sha256 := "626b4a6678b86442240e33df819e00132d3ba7dddfe1cdc4fbb18e0a9615c62d",
         download_url := "https://huggingface.co/Qwen/Qwen2.5-3B-Instruct-GGUF/resolve/main/qwen2.5-3b-instruct-q4_k_m.gguf" : ModelSpec }).backend ∈ entry.supported_backends) :=
  ⟨c3_backend_supported.1 ModelManifest.new
      { local_model := some "qwen2.5-0.5b-instruct-q4", local_backend := Option.none }
      { gpu_backend := .cuda, vram_bytes := 16000000000, ram_bytes := 32000000000,
        cpu_features := { avx2 := false, avx512 := false } }
      "qwen2.5-0.5b-instruct-q4" _ rfl rfl,
   c3_backend_supported.2 ModelConfig.default
      { gpu_backend := .metal, vram_bytes := 16000000000, ram_bytes := 32000000000,
        cpu_features := { avx2 := false, avx512 := false } }
      _ rfl⟩

/-- C4: the completion handler decides `stop_reason` in the fixed priority
order timeout > max_tokens > tool_use > end_turn, and always returns a
successful response from this tail — a generation timeout is reported as
`stop_reason = "timeout"` inside an `Ok`, never as an RPC error. -/
theorem c4_stop_reason_priority (timed_out : Bool) (output_len max_tokens : Nat)
    (tools : List ToolDef) (parsed : Option ToolCall) (content : String)
    (input_tokens : Nat) :
    ∃ resp, completeFinish timed_out output_len max_tokens tools parsed content input_tokens
        = .ok resp ∧
      (timed_out = true → resp.stop_reason = "timeout" ∧ resp.tool_calls = []) ∧
      (timed_out = false → output_len ≥ max_tokens →
        resp.stop_reason = "max_tokens" ∧ resp.tool_calls = []) ∧
      (∀ tc, timed_out = false → output_len < max_tokens → tools ≠ [] → parsed = some tc →
        resp.stop_reason = "tool_use" ∧ resp.tool_calls = [tc]) ∧
      (timed_out = false → output_len < max_tokens → (tools = [] ∨ parsed = Option.none) →
        resp.stop_reason = "end_turn" ∧ resp.tool_calls = []) ∧
      resp.content = content ∧
      resp.usage = { input_tokens := input_tokens, output_tokens := output_len } := by
  refine ⟨_, rfl, ?_, ?_, ?_, ?_, rfl, rfl⟩
  · intro ht
    simp [ht]
  · intro ht hlen
    simp [ht, hlen]
  · intro tc ht hlen htools hp
    simp [ht, hp, not_le.mpr hlen, List.isEmpty_iff, htools]
  · intro ht hlen hcase
    rcases hcase with h | h
    · simp [ht, not_le.mpr hlen, h]
    · cases htl : tools.isEmpty <;> simp [ht, not_le.mpr hlen, h, htl]

/-- C4 witness: the priority facts instantiated at a timed-out generation. -/
theorem c4_witness :
    ∃ resp, completeFinish true 5 512 [] Option.none "partial output" 7 = .ok resp ∧
      (true = true → resp.stop_reason = "timeout" ∧ resp.tool_calls = []) ∧
      (true = false → (5 : Nat) ≥ 512 → resp.stop_reason = "max_tokens" ∧ resp.tool_calls = []) ∧
      (∀ tc, true = false → (5 : Nat) < 512 → ([] : List ToolDef) ≠ [] →
        Option.none = some tc → resp.stop_reason = "tool_use" ∧ resp.tool_calls = [tc]) ∧
      (true = false → (5 : Nat) < 512 → (([] : List ToolDef) = [] ∨ (Option.none : Option ToolCall) = Option.none) →
        resp.stop_reason = "end_turn" ∧ resp.tool_calls = []) ∧
      resp.content = "partial output" ∧
      resp.usage = { input_tokens := 7, output_tokens := 5 } :=
  c4_stop_reason_priority true 5 512 [] Option.none "partial output" 7

/-- C7: for a non-empty token list, `decode` fails with
`ContextWindowExceeded { used := pos + tokens.length, max := n_ctx }` exactly
when `pos + tokens.length > n_ctx` (whatever the native decode would return),
and any `ContextWindowExceeded` it raises carries exactly that payload; for
the empty token list `decode` is a no-op returning `Ok` at every position. -/
theorem c7_decode_context_window (n_ctx : Nat) (nativeResult : Int)
    (tokens : List Int) (pos : Nat) (hne : tokens ≠ []) :
    (LlamaContext.decode n_ctx nativeResult tokens pos =
        .error (.ContextWindowExceeded (pos + tokens.length) n_ctx) ↔
      pos + tokens.length > n_ctx) ∧
    (∀ u m, LlamaContext.decode n_ctx nativeResult tokens pos =
        .error (.ContextWindowExceeded u m) →
      u = pos + tokens.length ∧ m = n_ctx ∧ pos + tokens.length > n_ctx) ∧
    (∀ p : Nat, LlamaContext.decode n_ctx nativeResult [] p = .ok ()) := by
  have hempty : tokens.isEmpty = false := by
    cases tokens with
    | nil => exact absurd rfl hne
    | cons a l => rfl
  refine ⟨?_, ?_, fun p => rfl⟩
  · unfold LlamaContext.decode
    rw [hempty]
    by_cases hw : pos + tokens.length > n_ctx
    · simp [hw]
    · by_cases hr : nativeResult ≠ 0 <;> simp [hw, hr]
  · intro u m h
    unfold LlamaContext.decode at h
    rw [hempty] at h
    by_cases hw : pos + tokens.length > n_ctx
    · simp only [Bool.false_eq_true, if_false, if_pos hw] at h
      cases h
      exact ⟨rfl, rfl, hw⟩
    · by_cases hr : nativeResult ≠ 0 <;> simp [hw, hr] at h

/-- C7 witness: three tokens at position 2 in a window of 4 overflow with
`used = 5, max = 4`; the same tokens at position 0 do not raise
`ContextWindowExceeded`. -/
theorem c7_witness :
    (LlamaContext.decode 4 0 [11, 12, 13] 2 =
        .error (.ContextWindowExceeded (2 + ([11, 12, 13] : List Int).length) 4) ↔
      2 + ([11, 12, 13] : List Int).length > 4) ∧
    (∀ u m, LlamaContext.decode 4 0 [11, 12, 13] 2 =
        .error (.ContextWindowExceeded u m) →
      u = 2 + ([11, 12, 13] : List Int).length ∧ m = 4 ∧
        2 + ([11, 12, 13] : List Int).length > 4) ∧
    (∀ p : Nat, LlamaContext.decode 4 0 [] p = .ok ()) :=
  c7_decode_context_window 4 0 [11, 12, 13] 2 (by decide)

/-- The `max_by` fold keeps an element of the input (or the seed) whose value
bounds the seed and every traversed element. -/
theorem maxByStep_foldl (xs : List (Nat × ℚ)) : ∀ acc : Nat × ℚ,
    (xs.foldl maxByStep acc = acc ∨ xs.foldl maxByStep acc ∈ xs) ∧
    acc.2 ≤ (xs.foldl maxByStep acc).2 ∧
    ∀ y ∈ xs, y.2 ≤ (xs.foldl maxByStep acc).2 := by
  induction xs with
  | nil => exact fun acc => ⟨Or.inl rfl, le_refl _, by simp⟩
  | cons x xs ih =>
    intro acc
    obtain ⟨hmem, hacc, hall⟩ := ih (maxByStep acc x)
    have hsplit : maxByStep acc x = acc ∨ maxByStep acc x = x := by
      unfold maxByStep
      by_cases h : acc.2 ≤ x.2 <;> simp [h]
    have haccle : acc.2 ≤ (maxByStep acc x).2 := by
      unfold maxByStep
      by_cases h : acc.2 ≤ x.2 <;> simp [h]
    have hxle : x.2 ≤ (maxByStep acc x).2 := by
      unfold maxByStep
      by_cases h : acc.2 ≤ x.2 <;> simp [h]
      exact le_of_not_le h
    refine ⟨?_, le_trans haccle hacc, ?_⟩
    · rcases hmem with h | h
      · rw [List.foldl_cons, h]
        rcases hsplit with h2 | h2
        · exact Or.inl h2
        · exact Or.inr (by rw [h2]; exact List.mem_cons_self _ _)
      · exact Or.inr (List.mem_cons_of_mem _ (by rw [List.foldl_cons]; exact h))
    · intro y hy
      rcases List.mem_cons.mp hy with h | h
      · rw [List.foldl_cons, h]
        exact le_trans hxle hacc
      · rw [List.foldl_cons]
        exact hall y h

/-- C10: the greedy sampler is deterministic (its result never depends on the
temperature-path oracle), `Sampler::greedy` always takes the greedy branch,
on a non-empty logits list it returns an in-range index whose logit is
maximal, and on the empty list it returns token 0. -/
theorem c10_greedy_argmax (logits : List ℚ) (tempPath tempPath2 : List ℚ → Nat)
    (hne : logits ≠ []) :
    Sampler.greedy.sample tempPath logits = Sampler.sample_greedy logits ∧
    Sampler.greedy.sample tempPath logits = Sampler.greedy.sample tempPath2 logits ∧
    (∃ h : Sampler.sample_greedy logits < logits.length,
      ∀ j (hj : j < logits.length),
        logits.get ⟨j, hj⟩ ≤ logits.get ⟨Sampler.sample_greedy logits, h⟩) ∧
    Sampler.sample_greedy [] = 0 := by
  refine ⟨by simp [Sampler.sample, Sampler.greedy], by simp [Sampler.sample, Sampler.greedy],
    ?_, rfl⟩
  cases he : logits.enum with
  | nil =>
    have hlen : logits.length = 0 := by
      have := congrArg List.length he
      simpa [List.enum_length] using this
    exact absurd (List.length_eq_zero.mp hlen) hne
  | cons x xs =>
    have hres : Sampler.sample_greedy logits = (xs.foldl maxByStep x).1 := by
      unfold Sampler.sample_greedy
      rw [he]
    rw [hres]
    obtain ⟨hmem, hseed, hall⟩ := maxByStep_foldl xs x
    have hr_mem : ((xs.foldl maxByStep x).1, (xs.foldl maxByStep x).2) ∈
        logits.enumFrom 0 := by
      have : xs.foldl maxByStep x ∈ logits.enum := by
        rw [he]
        rcases hmem with h | h
        · rw [h]; exact List.mem_cons_self _ _
        · exact List.mem_cons_of_mem _ h
      simpa [List.enum] using this
    obtain ⟨-, hlt0, hval⟩ := List.mem_enumFrom hr_mem
    have hr_lt : (xs.foldl maxByStep x).1 < logits.length := by simpa using hlt0
    have hval2 : (xs.foldl maxByStep x).2 =
        logits.get ⟨(xs.foldl maxByStep x).1, hr_lt⟩ := by
      simp only [List.get_eq_getElem]
      simpa using hval
    refine ⟨hr_lt, ?_⟩
    intro j hj
    have hj_mem : (j, logits.get ⟨j, hj⟩) ∈ logits.enum := by
      have : (0 + j, logits.get ⟨j, hj⟩) ∈ logits.enumFrom 0 :=
        List.mk_add_mem_enumFrom_iff_getElem?.mpr
          (by simp [List.getElem?_eq_getElem hj, List.get_eq_getElem])
      simpa [List.enum] using this
    have hle : (logits.get ⟨j, hj⟩ : ℚ) ≤ (xs.foldl maxByStep x).2 := by
      rw [he] at hj_mem
      rcases List.mem_cons.mp hj_mem with h | h
      · calc (logits.get ⟨j, hj⟩ : ℚ) = x.2 := by rw [← h]
        _ ≤ _ := hseed
      · exact hall _ h
    rw [← hval2]
    exact hle

/-- C10 witness: the greedy-sampler facts instantiated at the concrete logits
`[1, 5, 2, 5]` and two different temperature-path oracles. -/
theorem c10_witness :
    Sampler.greedy.sample (fun _ => 0) [(1 : ℚ), 5, 2, 5] =
      Sampler.sample_greedy [(1 : ℚ), 5, 2, 5] ∧
    Sampler.greedy.sample (fun _ => 0) [(1 : ℚ), 5, 2, 5] =
      Sampler.greedy.sample (fun _ => 1) [(1 : ℚ), 5, 2, 5] ∧
    (∃ h : Sampler.sample_greedy [(1 : ℚ), 5, 2, 5] < ([(1 : ℚ), 5, 2, 5] : List ℚ).length,
      ∀ j (hj : j < ([(1 : ℚ), 5, 2, 5] : List ℚ).length),
        ([(1 : ℚ), 5, 2, 5] : List ℚ).get ⟨j, hj⟩ ≤
          ([(1 : ℚ), 5, 2, 5] : List ℚ).get ⟨Sampler.sample_greedy [(1 : ℚ), 5, 2, 5], h⟩) ∧
    Sampler.sample_greedy [] = 0 :=
  c10_greedy_argmax [(1 : ℚ), 5, 2, 5] (fun _ => 0) (fun _ => 1) (List.cons_ne_nil _ _)

/-- When the brace walk reports a closing index, that index is in range
(relative to the walk's starting index) and the byte there is the closing
brace. -/
theorem extractJsonGo_closes (cs : List Char) : ∀ (depth : Int) (inStr esc : Bool)
    (i0 i : Nat), extractJsonGo cs depth inStr esc i0 = some i →
    i0 ≤ i ∧ i - i0 < cs.length ∧ cs[i - i0]? = some rbrace := by
  induction cs with
  | nil =>
    intro depth inStr esc i0 i h
    exact absurd h (by simp [extractJsonGo])
  | cons c rest ih =>
    intro depth inStr esc i0 i h
    have step : ∀ (d : Int) (s e : Bool),
        extractJsonGo rest d s e (i0 + 1) = some i →
        i0 ≤ i ∧ i - i0 < (c :: rest).length ∧ (c :: rest)[i - i0]? = some rbrace := by
      intro d s e h2
      obtain ⟨hle, hlt, hget⟩ := ih d s e (i0 + 1) i h2
      refine ⟨by omega, by simp only [List.length_cons]; omega, ?_⟩
      have hidx : i - i0 = (i - (i0 + 1)) + 1 := by omega
      rw [hidx, List.getElem?_cons_succ]
      exact hget
    rw [extractJsonGo] at h
    split at h
    · exact step _ _ _ h
    · split at h
      · exact step _ _ _ h
      · split at h
        · exact step _ _ _ h
        · split at h
          · exact step _ _ _ h
          · split at h
            · next hc =>
              split at h
              · cases h
                exact ⟨le_refl _, by simp, by simp [hc.1]⟩
              · exact step _ _ _ h
            · exact step _ _ _ h

/-- C8: `extract_json` finds the first opening brace and returns the
substring spanning the matched braces (a take of a drop of the input,
beginning with the opening brace and ending with its matching closing
brace, string contents and escapes respected), returns none when the input
has no opening brace, and on the end-to-end scenario 5 input it extracts
exactly the object whose string argument contains a brace, with the trailing
text excluded. -/
theorem c8_extract_json :
    extract_json ("Here is the call: \x7b\"name\":\"f\",\"arguments\":\x7b\"x\":\"\x7d\"\x7d\x7dtrailing".toList) =
      some ("\x7b\"name\":\"f\",\"arguments\":\x7b\"x\":\"\x7d\"\x7d\x7d".toList) ∧
    (∀ s r, extract_json s = some r →
      r.head? = some lbrace ∧ r.getLast? = some rbrace ∧
      ∃ st i, s.findIdx? (· = lbrace) = some st ∧ r = (s.drop st).take (i + 1)) ∧
    (∀ s, s.findIdx? (· = lbrace) = Option.none → extract_json s = Option.none) := by
  refine ⟨rfl, ?_, ?_⟩
  · intro s r h
    unfold extract_json at h
    cases hf : s.findIdx? (· = lbrace) with
    | none => rw [hf] at h; exact absurd h (by simp)
    | some st =>
      rw [hf] at h
      obtain ⟨i, hgo, hr⟩ := Option.map_eq_some'.mp h
      obtain ⟨-, hlt, hget⟩ := extractJsonGo_closes (s.drop st) 0 false false 0 i hgo
      rw [Nat.sub_zero] at hlt hget
      rw [List.length_drop] at hlt
      obtain ⟨hst_lt, hst_at, -⟩ := List.findIdx?_eq_some_iff_getElem.mp hf
      refine ⟨?_, ?_, st, i, rfl, hr.symm⟩
      · rw [← hr, List.head?_take, if_neg (Nat.succ_ne_zero i), List.head?_drop]
        rw [List.getElem?_eq_getElem hst_lt]
        simpa using hst_at
      · rw [← hr, List.getLast?_eq_getElem?]
        have hlen : ((s.drop st).take (i + 1)).length = i + 1 := by
          rw [List.length_take, List.length_drop]
          omega
        rw [hlen, Nat.add_sub_cancel, List.getElem?_take, if_pos (Nat.lt_succ_self i)]
        rw [List.getElem?_drop] at hget ⊢
        exact hget
  · intro s h
    simp [extract_json, h]

/-- C8 witness: the structural facts applied to the scenario 5 extraction. -/
theorem c8_witness :
    ("\x7b\"name\":\"f\",\"arguments\":\x7b\"x\":\"\x7d\"\x7d\x7d".toList).head? = some lbrace ∧
    ("\x7b\"name\":\"f\",\"arguments\":\x7b\"x\":\"\x7d\"\x7d\x7d".toList).getLast? = some rbrace ∧
    ∃ st i, ("Here is the call: \x7b\"name\":\"f\",\"arguments\":\x7b\"x\":\"\x7d\"\x7d\x7dtrailing".toList).findIdx? (· = lbrace) = some st ∧
      "\x7b\"name\":\"f\",\"arguments\":\x7b\"x\":\"\x7d\"\x7d\x7d".toList =
        (("Here is the call: \x7b\"name\":\"f\",\"arguments\":\x7b\"x\":\"\x7d\"\x7d\x7dtrailing".toList).drop st).take (i + 1) :=
  c8_extract_json.2.1
    ("Here is the call: \x7b\"name\":\"f\",\"arguments\":\x7b\"x\":\"\x7d\"\x7d\x7dtrailing".toList)
    ("\x7b\"name\":\"f\",\"arguments\":\x7b\"x\":\"\x7d\"\x7d\x7d".toList)
    c8_extract_json.1

/-- C9 counterexample: the `ns` arm of the unit match `continue`s without
resetting the pending-number state, so a duration containing `ns` is rejected
by the trailing bare-number parse (`"1s1ns"` would be 1 s if `ns` were
silently dropped as claimed; instead both it and a lone `"5ns"` error). -/
theorem c9_counterexample :
    parse_duration "1s1ns" = .error "invalid number: 1ns" ∧
    parse_duration "5ns" = .error "invalid number: 5ns" ∧
    parse_duration "1s1us" = .error "invalid number: 1us" :=
  ⟨rfl, rfl, rfl⟩

/-- C9 (amended): the parser accepts `s`, `m`, `h`; a bare integer means
seconds; `ms` contributes its whole-second part when at least 1000 and is
silently dropped below that; a zero total duration and the empty string are
rejected; but the `ns` and `us` arms leave the number state unreset, so any
input containing them fails with an invalid-number error instead of being
silently dropped.  Every accepted duration is positive. -/
theorem c9_duration_grammar :
    parse_duration "1h30m" = .ok 5400 ∧
    parse_duration "0s" = .error "duration must be positive" ∧
    parse_duration "300" = .ok 300 ∧
    parse_duration "" = .error "empty duration" ∧
    parse_duration "90m" = .ok 5400 ∧
    parse_duration "5400s" = .ok 5400 ∧
    parse_duration "5400" = .ok 5400 ∧
    parse_duration "1500ms" = .ok 1 ∧
    parse_duration "999ms" = .error "duration must be positive" ∧
    (∀ s n, parse_duration s = .ok n → 0 < n) := by
  refine ⟨rfl, rfl, rfl, rfl, rfl, rfl, rfl, rfl, rfl, ?_⟩
  intro s n h
  unfold parse_duration at h
  dsimp only at h
  split at h
  · exact absurd h (by simp)
  · split at h
    · exact absurd h (by simp)
    · split at h
      · split at h
        · exact absurd h (by simp)
        · next htot =>
          cases h
          exact Nat.pos_of_ne_zero htot
      · split at h
        · exact absurd h (by simp)
        · split at h
          · exact absurd h (by simp)
          · next htot =>
            cases h
            exact Nat.pos_of_ne_zero htot

/-- C9 witness: positivity applied to the accepted input `"300"`. -/
theorem c9_witness : parse_duration "300" = .ok 300 ∧ 0 < 300 :=
  ⟨c9_duration_grammar.2.2.1,
   c9_duration_grammar.2.2.2.2.2.2.2.2.2 "300" 300 c9_duration_grammar.2.2.1⟩

/-- An attempt's trace contains exactly one fetch. -/
theorem countFetch_attemptTrace (url : String) (k : Nat) (r : AttemptResult) :
    countFetch (attemptTrace url k r) = 1 := by
  simp [countFetch, attemptTrace, List.filter_cons, List.filter_map, Function.comp_def]

/-- Fetch counting distributes over trace concatenation. -/
theorem countFetch_append (a b : List DlEvent) :
    countFetch (a ++ b) = countFetch a + countFetch b := by
  simp [countFetch, List.filter_append]

/-- The retry loop performs at most `fuel` fetch attempts. -/
theorem countFetch_retryFrom (orc : Nat → AttemptResult) (url temp : String) :
    ∀ (fuel attempt : Nat) (last : String),
      countFetch (retryFrom orc url temp attempt fuel last).1 ≤ fuel := by
  intro fuel
  induction fuel with
  | zero => intro attempt last; simp [retryFrom, countFetch]
  | succ fuel ih =>
    intro attempt last
    rw [retryFrom]
    cases houtcome : (orc attempt).outcome with
    | ok u =>
      cases u
      simp only [houtcome]
      rw [countFetch_attemptTrace]
      omega
    | error e =>
      simp only [houtcome]
      rw [countFetch_append, countFetch_append, countFetch_append,
        countFetch_attemptTrace]
      have hrm : countFetch [DlEvent.removeFile temp] = 0 := by simp [countFetch]
      have hsl : countFetch (if attempt < 3 then [DlEvent.sleep (2 ^ (attempt - 1))] else []) = 0 := by
        by_cases hlt : attempt < 3 <;> simp [hlt, countFetch]
      rw [hrm, hsl]
      have := ih (attempt + 1) e.toMessage
      omega

/-- The split-part walk performs at most three fetches per part. -/
theorem countFetch_downloadParts (orc : Nat → Nat → AttemptResult)
    (files : String → Option (List Nat)) (models_dir : String) :
    ∀ (parts : List (String × String)) (idx : Nat),
      countFetch (downloadParts orc files models_dir parts idx).1 ≤ 3 * parts.length := by
  intro parts
  induction parts with
  | nil => intro idx; simp [downloadParts, countFetch]
  | cons p rest ih =>
    intro idx
    obtain ⟨url, filename⟩ := p
    rw [downloadParts]
    by_cases hex : (files (joinPath models_dir filename)).isSome
    · rw [if_pos hex]
      have h2 := ih (idx + 1)
      simp only [List.length_cons]
      omega
    · rw [if_neg hex]
      dsimp only
      have h1 := countFetch_retryFrom (orc idx) url
        (joinPath (ModelManager.download_dir models_dir) (filename ++ ".part")) 3 1 ""
      cases hrun : (retryFrom (orc idx) url
          (joinPath (ModelManager.download_dir models_dir) (filename ++ ".part")) 1 3 "").2 with
      | ok u =>
        cases u
        simp only [hrun]
        rw [countFetch_append, countFetch_append]
        have h2 := ih (idx + 1)
        have hrn : countFetch [DlEvent.renameFile
          (joinPath (ModelManager.download_dir models_dir) (filename ++ ".part"))
          (joinPath models_dir filename)] = 0 := by simp [countFetch]
        rw [hrn]
        simp only [List.length_cons]
        omega
      | error e =>
        simp only [hrun]
        simp only [List.length_cons]
        omega

/-- C5: `download` makes at most 3 fetch attempts per part (single-file
branch, split-part branch, and the bare retry loop alike); when all three
attempts fail, the loop's trace shows a staging-file removal after every
failed fetch and a `2^(attempt-1)`-second sleep before each following
attempt, and the result records 3 attempts and the message of the last
error. -/
theorem c5_download_retry (oracle : Nat → AttemptResult) (url temp : String)
    (e1 e2 e3 : ModelError)
    (h1 : (oracle 1).outcome = .error e1)
    (h2 : (oracle 2).outcome = .error e2)
    (h3 : (oracle 3).outcome = .error e3) :
    (retry3 oracle url temp).2 = .error (.DownloadFailed 3 e3.toMessage) ∧
    (retry3 oracle url temp).1 =
      attemptTrace url 1 (oracle 1) ++ [.removeFile temp, .sleep 1] ++
      attemptTrace url 2 (oracle 2) ++ [.removeFile temp, .sleep 2] ++
      attemptTrace url 3 (oracle 3) ++ [.removeFile temp] ∧
    (∀ orc : Nat → AttemptResult, countFetch (retry3 orc url temp).1 ≤ 3) ∧
    (∀ (orc : Nat → AttemptResult) (files : String → Option (List Nat))
        (models_dir name : String) (entry : ModelEntry),
      countFetch (downloadSingleFile orc files models_dir name entry).1 ≤ 3) ∧
    (∀ (orc : Nat → Nat → AttemptResult) (files : String → Option (List Nat))
        (models_dir : String) (parts : List (String × String)) (idx : Nat),
      countFetch (downloadParts orc files models_dir parts idx).1 ≤ 3 * parts.length) := by
  refine ⟨?_, ?_, ?_, ?_, ?_⟩
  · simp [retry3, retryFrom, h1, h2, h3]
  · simp [retry3, retryFrom, h1, h2, h3, attemptTrace]
  · intro orc
    exact countFetch_retryFrom orc url temp 3 1 ""
  · intro orc files models_dir name entry
    unfold downloadSingleFile
    dsimp only
    have h1 := countFetch_retryFrom orc entry.download_url
      (ModelManager.temp_path models_dir name) 3 1 ""
    have hcl : countFetch (if (files (joinPath models_dir (name ++ ".gguf"))).isSome
        then [DlEvent.removeFile (joinPath models_dir (name ++ ".gguf"))] else []) = 0 := by
      by_cases hex : (files (joinPath models_dir (name ++ ".gguf"))).isSome <;>
        simp [hex, countFetch]
    cases hrun : (retry3 orc entry.download_url (ModelManager.temp_path models_dir name)).2 with
    | ok u =>
      cases u
      simp only [hrun]
      rw [countFetch_append, countFetch_append, hcl]
      have : countFetch [DlEvent.renameFile (ModelManager.temp_path models_dir name)
          (joinPath models_dir (name ++ ".gguf"))] = 0 := by simp [countFetch]
      rw [this]
      simpa [retry3] using h1
    | error e =>
      simp only [hrun]
      rw [countFetch_append, hcl]
      simpa [retry3] using h1
  · intro orc files models_dir parts idx
    exact countFetch_downloadParts orc files models_dir parts idx

/-- C5 witness: the retry discipline at an oracle whose three attempts fail
with a network, an I/O and a checksum error. -/
theorem c5_witness :
    ((retry3 (fun k => if k = 1 then { progress := [], outcome := .error (.Network "timed out") }
        else if k = 2 then { progress := [], outcome := .error (.Io "disk full") }
        else { progress := [], outcome := .error (.ChecksumMismatch "m" "aa" "bb") })
        "https://example.com/m.gguf" "/m/.download/m.gguf.part").2 =
      .error (.DownloadFailed 3
        (ModelError.toMessage (.ChecksumMismatch "m" "aa" "bb")))) ∧
    ((retry3 (fun k => if k = 1 then { progress := [], outcome := .error (.Network "timed out") }
        else if k = 2 then { progress := [], outcome := .error (.Io "disk full") }
        else { progress := [], outcome := .error (.ChecksumMismatch "m" "aa" "bb") })
        "https://example.com/m.gguf" "/m/.download/m.gguf.part").1 =
      attemptTrace "https://example.com/m.gguf" 1 { progress := [], outcome := .error (.Network "timed out") } ++
        [.removeFile "/m/.download/m.gguf.part", .sleep 1] ++
      attemptTrace "https://example.com/m.gguf" 2 { progress := [], outcome := .error (.Io "disk full") } ++
        [.removeFile "/m/.download/m.gguf.part", .sleep 2] ++
      attemptTrace "https://example.com/m.gguf" 3 { progress := [], outcome := .error (.ChecksumMismatch "m" "aa" "bb") } ++
        [.removeFile "/m/.download/m.gguf.part"]) := by
  have h := c5_download_retry
    (fun k => if k = 1 then { progress := [], outcome := .error (.Network "timed out") }
      else if k = 2 then { progress := [], outcome := .error (.Io "disk full") }
      else { progress := [], outcome := .error (.ChecksumMismatch "m" "aa" "bb") })
    "https://example.com/m.gguf" "/m/.download/m.gguf.part"
    (.Network "timed out") (.Io "disk full") (.ChecksumMismatch "m" "aa" "bb")
    rfl rfl rfl
  exact ⟨h.1, by rw [h.2.1]; rfl⟩

/-- C6: `download` is idempotent — whenever `is_available` already holds
(every expected part on disk and the checksum verified), `download` returns
the final model path immediately with an empty event trace: no fetch is
issued and the progress callback is invoked zero times. -/
theorem c6_download_idempotent (hash : List Nat → String)
    (files : String → Option (List Nat)) (oracle : Nat → Nat → AttemptResult)
    (manifest : ModelManifest) (models_dir name : String)
    (hav : ModelManager.is_available hash files manifest models_dir name = true) :
    ModelManager.download hash files oracle manifest models_dir name =
      ([], .ok (ModelManager.model_path manifest models_dir name)) ∧
    countFetch (ModelManager.download hash files oracle manifest models_dir name).1 = 0 ∧
    countProgress (ModelManager.download hash files oracle manifest models_dir name).1 = 0 := by
  have hget : (manifest.get name).isSome := by
    by_contra hnone
    rw [Option.not_isSome_iff_eq_none] at hnone
    unfold ModelManager.is_available ModelManager.verify at hav
    rw [hnone] at hav
    by_cases hex : (ModelManager.all_model_paths manifest models_dir name).all
        (fun p => (files p).isSome)
    · rw [if_pos hex] at hav
      exact absurd hav (by simp)
    · rw [if_neg hex] at hav
      exact absurd hav (by simp)
  obtain ⟨entry, hentry⟩ := Option.isSome_iff_exists.mp hget
  have hmain : ModelManager.download hash files oracle manifest models_dir name =
      ([], .ok (ModelManager.model_path manifest models_dir name)) := by
    unfold ModelManager.download
    rw [hentry]
    dsimp only
    rw [if_pos hav]
  exact ⟨hmain, by rw [hmain]; rfl, by rw [hmain]; rfl⟩

/-- C6 witness: a pre-seeded single-file model whose bytes hash to the
manifest checksum is available, and `download` on it returns the path with no
events. -/
theorem c6_witness :
    ModelManager.download (fun _ => "abc")
      (fun p => if p = "/models/test-model.gguf" then some [7, 7] else Option.none)
      (fun _ _ => { progress := [], outcome := .ok () })
      { models := [("test-model",
          { quantization := "q4_k_m", size_bytes := 2, sha256 := "abc",
            download_url := "https://example.com/test-model.gguf", split_count := 1,
            supported_backends := [.cpu] })] }
      "/models" "test-model" =
    ([], .ok (ModelManager.model_path
      { models := [("test-model",
          { quantization := "q4_k_m", size_bytes := 2, sha256 := "abc",
            download_url := "https://example.com/test-model.gguf", split_count := 1,
            supported_backends := [.cpu] })] }
      "/models" "test-model")) :=
  (c6_download_idempotent (fun _ => "abc")
    (fun p => if p = "/models/test-model.gguf" then some [7, 7] else Option.none)
    (fun _ _ => { progress := [], outcome := .ok () })
    { models := [("test-model",
        { quantization := "q4_k_m", size_bytes := 2, sha256 := "abc",
          download_url := "https://example.com/test-model.gguf", split_count := 1,
          supported_backends := [.cpu] })] }
    "/models" "test-model" rfl).1
